import Mathlib

/-!
# Verification of the Cobra frame-building fixture calculator

Shallow embedding of the geometry-resolution and range-validation core of
the frame-fixture calculator (source file `Calculator.js`, the extended
variant with primary-dimension modes).  Pure trigonometric formulas are
embedded over `ℝ` (JS `Math.sin`/`Math.cos`/`Math.sqrt`/`Math.atan`/
`Math.asin` on real inputs); the form-level values, schema checks and range
validators are embedded over `ℚ`, which models the parsed decimal inputs
and keeps every predicate decidable.
-/

open Real

namespace Cobra

/-! ## Constants (fixture limits, inclusive unless otherwise noted) -/

def MIN_ST_HT_ANGLE : ℚ := -10
def MAX_ST_HT_ANGLE : ℚ := 10
def MIN_HTX : ℚ := 80
def MAX_HTX : ℚ := 700
def MIN_HTY : ℚ := 0
def MAX_HTY : ℚ := 400
def MIN_HT_LENGTH_LARGEST : ℚ := 60
def HT_CONE_RANGE : ℚ := 20
def MIN_DAX : ℚ := 50
def MAX_DAX : ℚ := 600
def MIN_DAY : ℚ := 0
def MAX_DAY : ℚ := 250
def MAX_HTY_TOP_LARGEST : ℚ := MAX_HTY + MIN_HT_LENGTH_LARGEST
def MAX_HTY_TOP_SMALLEST : ℚ := MAX_HTY + MIN_HT_LENGTH_LARGEST - HT_CONE_RANGE

/-! ## Pure trigonometric formulas (Fixture Calculator) -/

/-- `degToRad(degrees) = degrees * (Math.PI / 180)`. -/
noncomputable def degToRad (degrees : ℝ) : ℝ := degrees * (π / 180)

/-- `htaStackReachToHtx(hta, stack, reach)`:
`sqrt(stack^2 + reach^2) * sin(degToRad(180 - hta) - atan(stack / reach))`. -/
noncomputable def htaStackReachToHtx (hta stack reach : ℝ) : ℝ :=
  Real.sqrt (stack ^ 2 + reach ^ 2) *
    Real.sin (degToRad (180 - hta) - Real.arctan (stack / reach))

/-- `htaHtlStackReachToHty(hta, htlength, stack, reach)`:
`sqrt(stack^2 + reach^2) * cos(degToRad(180 - hta) - atan(stack / reach)) - htlength`. -/
noncomputable def htaHtlStackReachToHty (hta htlength stack reach : ℝ) : ℝ :=
  Real.sqrt (stack ^ 2 + reach ^ 2) *
      Real.cos (degToRad (180 - hta) - Real.arctan (stack / reach)) -
    htlength

/-- `correctForkLength(forklength, forkoffset, isac)`: if `isac`
(axle-to-crown), project onto the steering axis, else return unchanged. -/
noncomputable def correctForkLength (forklength forkoffset : ℝ) (isac : Bool) : ℝ :=
  if isac then Real.sqrt (forklength ^ 2 - forkoffset ^ 2) else forklength

/-- DAX calculate: `cslength * cos(degToRad(90) - degToRad(hta) + asin(bbdrop / cslength))`. -/
noncomputable def dax (hta cslength bbdrop : ℝ) : ℝ :=
  cslength * Real.cos (degToRad 90 - degToRad hta + Real.arcsin (bbdrop / cslength))

/-- DAY calculate: `cslength * sin(degToRad(90) - degToRad(hta) + asin(bbdrop / cslength))`. -/
noncomputable def day (hta cslength bbdrop : ℝ) : ℝ :=
  cslength * Real.sin (degToRad 90 - degToRad hta + Real.arcsin (bbdrop / cslength))

/-- HTX calculate, `PDM_FRONT_CENTER` branch:
`sin(degToRad(hta)) * sqrt(frontcenter^2 - bbdrop^2) + bbdrop * cos(degToRad(hta)) - forkoffset`. -/
noncomputable def htxFrontCenter (hta frontcenter bbdrop forkoffset : ℝ) : ℝ :=
  Real.sin (degToRad hta) * Real.sqrt (frontcenter ^ 2 - bbdrop ^ 2) +
      bbdrop * Real.cos (degToRad hta) -
    forkoffset

/-- HTY calculate, `PDM_FRONT_CENTER` branch:
`correctForkLength(forklength, forkoffset, isac) + lhsh -
 (sqrt(frontcenter^2 - bbdrop^2) * cos(h) - bbdrop * sin(h))` with `h = degToRad(hta)`. -/
noncomputable def htyFrontCenter (hta frontcenter forklength : ℝ) (isac : Bool)
    (forkoffset lhsh bbdrop : ℝ) : ℝ :=
  correctForkLength forklength forkoffset isac + lhsh -
    (Real.sqrt (frontcenter ^ 2 - bbdrop ^ 2) * Real.cos (degToRad hta) -
      bbdrop * Real.sin (degToRad hta))

/-- The effective stack used by the `PDM_ETT_TAIWANESE` branches:
`(htlength + correctForkLength(forklength, forkoffset, isac) + lhsh) * sin(h)
 - forkoffset * cos(h) + bbdrop` with `h = degToRad(hta)`. -/
noncomputable def ettTaiwaneseStack (hta htlength forklength : ℝ) (isac : Bool)
    (forkoffset lhsh bbdrop : ℝ) : ℝ :=
  (htlength + correctForkLength forklength forkoffset isac + lhsh) *
      Real.sin (degToRad hta) -
    forkoffset * Real.cos (degToRad hta) + bbdrop

/-- The effective reach used by the `PDM_ETT_TAIWANESE` branches:
`etttaiwanese - stack * tan(degToRad(90 - sta))`. -/
noncomputable def ettTaiwaneseReach (sta etttaiwanese stack : ℝ) : ℝ :=
  etttaiwanese - stack * Real.tan (degToRad (90 - sta))

/-- HTX calculate, `PDM_ETT_TAIWANESE` branch. -/
noncomputable def htxEttTaiwanese (hta sta htlength etttaiwanese forklength : ℝ)
    (isac : Bool) (forkoffset lhsh bbdrop : ℝ) : ℝ :=
  htaStackReachToHtx hta
    (ettTaiwaneseStack hta htlength forklength isac forkoffset lhsh bbdrop)
    (ettTaiwaneseReach sta etttaiwanese
      (ettTaiwaneseStack hta htlength forklength isac forkoffset lhsh bbdrop))

/-- HTY calculate, `PDM_ETT_TAIWANESE` branch. -/
noncomputable def htyEttTaiwanese (hta sta htlength etttaiwanese forklength : ℝ)
    (isac : Bool) (forkoffset lhsh bbdrop : ℝ) : ℝ :=
  htaHtlStackReachToHty hta htlength
    (ettTaiwaneseStack hta htlength forklength isac forkoffset lhsh bbdrop)
    (ettTaiwaneseReach sta etttaiwanese
      (ettTaiwaneseStack hta htlength forklength isac forkoffset lhsh bbdrop))

/-- The `stackToHtTt` of the `PDM_ETT_TT` branches:
`(htlength - htttoffset + correctForkLength(...) + lhsh) * sin(h)
 - forkoffset * cos(h) + bbdrop`. -/
noncomputable def ettTtStack (hta htlength htttoffset forklength : ℝ) (isac : Bool)
    (forkoffset lhsh bbdrop : ℝ) : ℝ :=
  (htlength - htttoffset + correctForkLength forklength forkoffset isac + lhsh) *
      Real.sin (degToRad hta) -
    forkoffset * Real.cos (degToRad hta) + bbdrop

/-- The `reachToHtTt` of the `PDM_ETT_TT` branches:
`etttt - stackToHtTt * tan(degToRad(90 - sta))`. -/
noncomputable def ettTtReach (sta etttt stackToHtTt : ℝ) : ℝ :=
  etttt - stackToHtTt * Real.tan (degToRad (90 - sta))

/-- HTX calculate, `PDM_ETT_TT` branch. -/
noncomputable def htxEttTt (hta sta htlength etttt htttoffset forklength : ℝ)
    (isac : Bool) (forkoffset lhsh bbdrop : ℝ) : ℝ :=
  htaStackReachToHtx hta
    (ettTtStack hta htlength htttoffset forklength isac forkoffset lhsh bbdrop)
    (ettTtReach sta etttt
      (ettTtStack hta htlength htttoffset forklength isac forkoffset lhsh bbdrop))

/-- HTY calculate, `PDM_ETT_TT` branch: the generic HTY at the reduced stack,
plus `htttoffset` added back. -/
noncomputable def htyEttTt (hta sta htlength etttt htttoffset forklength : ℝ)
    (isac : Bool) (forkoffset lhsh bbdrop : ℝ) : ℝ :=
  htaHtlStackReachToHty hta htlength
    (ettTtStack hta htlength htttoffset forklength isac forkoffset lhsh bbdrop)
    (ettTtReach sta etttt
      (ettTtStack hta htlength htttoffset forklength isac forkoffset lhsh bbdrop)) +
    htttoffset

/-! ## Spec-side formulas (for refinement claims)

These follow the specification's wording: `sin(180° − hta − atan(stack/reach))`
with every degree quantity converted to radians at the interface. -/

/-- Spec formula for HTX in stack/reach terms. -/
noncomputable def htxSpec (hta stack reach : ℝ) : ℝ :=
  Real.sqrt (stack ^ 2 + reach ^ 2) *
    Real.sin (degToRad 180 - degToRad hta - Real.arctan (stack / reach))

/-- Spec formula for HTY in stack/reach terms. -/
noncomputable def htySpec (hta htlength stack reach : ℝ) : ℝ :=
  Real.sqrt (stack ^ 2 + reach ^ 2) *
      Real.cos (degToRad 180 - degToRad hta - Real.arctan (stack / reach)) -
    htlength

/-- Spec formula for the ETT Taiwanese effective reach:
`reach = etttaiwanese - stack * tan(90° - sta)` with degrees converted. -/
noncomputable def ettReachSpec (sta etttaiwanese stack : ℝ) : ℝ :=
  etttaiwanese - stack * Real.tan (degToRad 90 - degToRad sta)

/-! ## Range validators -/

/-- Verdict of a range validator: `ok` (validate returned falsy),
`outOfRange` (returned `true`), or one of the two conditional HTY advisories
(returned a message element). -/
inductive Verdict where
  | ok : Verdict
  | outOfRange : Verdict
  | condPossible : Verdict
  | condDefinite : Verdict
deriving DecidableEq, Repr

/-- ST-HT angle validate: `v < MIN_ST_HT_ANGLE ? true : v > MAX_ST_HT_ANGLE ? true : false`. -/
def validateStaHta (v : ℚ) : Verdict :=
  if v < MIN_ST_HT_ANGLE then .outOfRange
  else if v > MAX_ST_HT_ANGLE then .outOfRange
  else .ok

/-- HTX validate: `v < MIN_HTX || v > MAX_HTX`. -/
def validateHtx (v : ℚ) : Verdict :=
  if v < MIN_HTX ∨ v > MAX_HTX then .outOfRange else .ok

/-- DAX validate: `v < MIN_DAX || v > MAX_DAX`. -/
def validateDax (v : ℚ) : Verdict :=
  if v < MIN_DAX ∨ v > MAX_DAX then .outOfRange else .ok

/-- DAY validate: `v < MIN_DAY || v > MAX_DAY`. -/
def validateDay (v : ℚ) : Verdict :=
  if v < MIN_DAY ∨ v > MAX_DAY then .outOfRange else .ok

/-- HTY validate.  `htlength` is the raw watched form field; when it is blank
the code computes `htytop = v + parseFloat("") = NaN`, and in JS both
comparisons `NaN > MAX_HTY_TOP_SMALLEST` and `NaN > MAX_HTY_TOP_LARGEST` are
false, so the conditional stage never fires; the `none` branch encodes
exactly that. -/
def validateHty (v : ℚ) (htlength : Option ℚ) : Verdict :=
  if v < MIN_HTY ∨ v > MAX_HTY then .outOfRange
  else
    match htlength with
    | some l =>
        if v + l > MAX_HTY_TOP_SMALLEST then
          if v + l > MAX_HTY_TOP_LARGEST then .condDefinite else .condPossible
        else .ok
    | none => .ok

/-! ## Form-level model: inputs, schema checks, per-output gating

The form watches each field; a field is blank (`none`) or holds a parsed
number.  `basicInputSchema` marks a present value invalid when it violates
its bounds or the cross-field magnitude constraints.  The `Result`
component collects `waitingOn` — every required field that is absent or has
a schema error — and only runs `calculate` when that list is empty.  Each
`*Eval` below embeds one `Result`'s gate: `none` models the waiting state
(`calculate` not attempted), `some` the computed value. -/

structure Inputs where
  hta : Option ℚ
  sta : Option ℚ
  htlength : Option ℚ
  bbdrop : Option ℚ
  cslength : Option ℚ
  stack : Option ℚ
  reach : Option ℚ
  frontcenter : Option ℚ
  etttaiwanese : Option ℚ
  etttt : Option ℚ
  htttoffset : Option ℚ
  forklength : Option ℚ
  isac : Bool
  forkoffset : Option ℚ
  lhsh : Option ℚ

/-- `hta` is present and passes `moreThan(0).lessThan(180)`. -/
def htaReady (i : Inputs) : Bool :=
  match i.hta with
  | some h => decide (0 < h ∧ h < 180)
  | none => false

/-- `sta` is present and passes `moreThan(0).lessThan(180)`. -/
def staReady (i : Inputs) : Bool :=
  match i.sta with
  | some s => decide (0 < s ∧ s < 180)
  | none => false

/-- `htlength` is present and passes `min(MIN_HT_LENGTH_LARGEST)`. -/
def htlengthReady (i : Inputs) : Bool :=
  match i.htlength with
  | some l => decide (MIN_HT_LENGTH_LARGEST ≤ l)
  | none => false

/-- `cslength` is present and passes `moreThan(0)`. -/
def cslengthReady (i : Inputs) : Bool :=
  match i.cslength with
  | some c => decide (0 < c)
  | none => false

/-- `stack` is present and passes `moreThan(0)`. -/
def stackReady (i : Inputs) : Bool :=
  match i.stack with
  | some s => decide (0 < s)
  | none => false

/-- `reach` is present and passes `moreThan(0)`. -/
def reachReady (i : Inputs) : Bool :=
  match i.reach with
  | some r => decide (0 < r)
  | none => false

/-- `frontcenter` is present and passes `moreThan(0)`. -/
def frontcenterReady (i : Inputs) : Bool :=
  match i.frontcenter with
  | some f => decide (0 < f)
  | none => false

/-- `forklength` is present and passes `moreThan(0)`. -/
def forklengthReady (i : Inputs) : Bool :=
  match i.forklength with
  | some f => decide (0 < f)
  | none => false

/-- `lhsh` is present and passes `min(0)`. -/
def lhshReady (i : Inputs) : Bool :=
  match i.lhsh with
  | some x => decide (0 ≤ x)
  | none => false

/-- `bbdrop` is present and passes both `absMax` tests
(`|bbdrop| ≤ cslength` and `|bbdrop| ≤ frontcenter`; each test passes
vacuously when its reference field is null). -/
def bbdropReady (i : Inputs) : Bool :=
  match i.bbdrop with
  | some b =>
      (match i.cslength with
        | some c => decide (|b| ≤ c)
        | none => true) &&
      (match i.frontcenter with
        | some f => decide (|b| ≤ f)
        | none => true)
  | none => false

/-- `forkoffset` is present and, when `isac`, passes
`absMax(forklength)` (vacuous when `forklength` is null). -/
def forkoffsetReady (i : Inputs) : Bool :=
  match i.forkoffset with
  | some fo =>
      if i.isac then
        match i.forklength with
        | some fl => decide (|fo| ≤ fl)
        | none => true
      else true
  | none => false

/-- ST-HT angle `Result`: values `hta`, `sta`; calculate `sta - hta`. -/
def staHtaEval (i : Inputs) : Option ℚ :=
  if htaReady i && staReady i then
    match i.hta, i.sta with
    | some h, some s => some (s - h)
    | _, _ => none
  else none

/-- HTX `Result` in `PDM_STACK_REACH`: values `hta`, `stack`, `reach`. -/
noncomputable def htxStackReachEval (i : Inputs) : Option ℝ :=
  if htaReady i && stackReady i && reachReady i then
    match i.hta, i.stack, i.reach with
    | some h, some s, some r => some (htaStackReachToHtx h s r)
    | _, _, _ => none
  else none

/-- HTY `Result` in `PDM_STACK_REACH`: values `hta`, `htlength`, `stack`, `reach`. -/
noncomputable def htyStackReachEval (i : Inputs) : Option ℝ :=
  if htaReady i && htlengthReady i && stackReady i && reachReady i then
    match i.hta, i.htlength, i.stack, i.reach with
    | some h, some l, some s, some r => some (htaHtlStackReachToHty h l s r)
    | _, _, _, _ => none
  else none

/-- DAX `Result`: values `hta`, `cslength`, `bbdrop` (mode-independent). -/
noncomputable def daxEval (i : Inputs) : Option ℝ :=
  if htaReady i && cslengthReady i && bbdropReady i then
    match i.hta, i.cslength, i.bbdrop with
    | some h, some c, some b => some (dax h c b)
    | _, _, _ => none
  else none

/-- DAY `Result`: values `hta`, `cslength`, `bbdrop` (mode-independent). -/
noncomputable def dayEval (i : Inputs) : Option ℝ :=
  if htaReady i && cslengthReady i && bbdropReady i then
    match i.hta, i.cslength, i.bbdrop with
    | some h, some c, some b => some (day h c b)
    | _, _, _ => none
  else none

/-- HTY `Result` in `PDM_FRONT_CENTER`: values `hta`, `frontcenter`,
`forklength`, `isac` (never counted as waiting), `forkoffset` only when
`isac`, `lhsh`, `bbdrop`.  `htlength` is not among the values.  When `isac`
is false the calculate body destructures `forkoffset` as `undefined`, which
`correctForkLength` then ignores; `getD 0` supplies the unused slot. -/
noncomputable def htyFrontCenterEval (i : Inputs) : Option ℝ :=
  if htaReady i && frontcenterReady i && forklengthReady i &&
      (!i.isac || forkoffsetReady i) && lhshReady i && bbdropReady i then
    match i.hta, i.frontcenter, i.forklength, i.lhsh, i.bbdrop with
    | some h, some fc, some fl, some lh, some bb =>
        some (htyFrontCenter h fc fl i.isac ((i.forkoffset.getD 0 : ℚ) : ℝ) lh bb)
    | _, _, _, _, _ => none
  else none

/-! ## Claims -/

/-- C1: In Stack/Reach mode, for every `hta ∈ (0,180)` and `stack, reach > 0`,
the computed HTX equals `sqrt(stack² + reach²) * sin(180° − hta − atan(stack/reach))`
and the computed HTY equals
`sqrt(stack² + reach²) * cos(180° − hta − atan(stack/reach)) − htlength`,
with angles converted from degrees to radians internally. -/
theorem claim1_stack_reach_htx_hty (hta htlength stack reach : ℝ)
    (h0 : 0 < hta) (h1 : hta < 180) (hs : 0 < stack) (hr : 0 < reach) :
    htaStackReachToHtx hta stack reach = htxSpec hta stack reach ∧
    htaHtlStackReachToHty hta htlength stack reach = htySpec hta htlength stack reach := by
  constructor <;>
  · simp only [htaStackReachToHtx, htxSpec, htaHtlStackReachToHty, htySpec, degToRad]
    ring_nf

/-- Witness for C1 at `hta = 90`, `htlength = 50`, `stack = reach = 1`. -/
theorem claim1_stack_reach_htx_hty_witness :
    (0:ℝ) < 90 ∧ (90:ℝ) < 180 ∧ (0:ℝ) < 1 ∧
    (htaStackReachToHtx 90 1 1 = htxSpec 90 1 1 ∧
     htaHtlStackReachToHty 90 50 1 1 = htySpec 90 50 1 1) :=
  ⟨by norm_num, by norm_num, by norm_num,
   claim1_stack_reach_htx_hty 90 50 1 1 (by norm_num) (by norm_num) (by norm_num)
     (by norm_num)⟩

/-- C2: the HTY verdict is two-stage: out of `[0,400]` is `outOfRange`;
inside, with `htyTop = v + htlength`, `htyTop ≤ 440` is `ok` (boundary
inclusive), `440 < htyTop ≤ 460` warns the top could possibly exceed the
limit, and `htyTop > 460` warns it definitely will. -/
theorem claim2_hty_two_stage (v l : ℚ) :
    ((v < 0 ∨ 400 < v) → validateHty v (some l) = .outOfRange) ∧
    (0 ≤ v → v ≤ 400 → v + l ≤ 440 → validateHty v (some l) = .ok) ∧
    (0 ≤ v → v ≤ 400 → 440 < v + l → v + l ≤ 460 →
      validateHty v (some l) = .condPossible) ∧
    (0 ≤ v → v ≤ 400 → 460 < v + l → validateHty v (some l) = .condDefinite) := by
  simp only [validateHty, MIN_HTY, MAX_HTY, MAX_HTY_TOP_SMALLEST, MAX_HTY_TOP_LARGEST,
    MIN_HT_LENGTH_LARGEST, HT_CONE_RANGE]
  refine ⟨?_, ?_, ?_, ?_⟩
  · intro h
    rw [if_pos h]
  · intro h0 h4 ht
    rw [if_neg (by rintro (h | h) <;> linarith), if_neg (by push_neg; linarith)]
  · intro h0 h4 ht hu
    rw [if_neg (by rintro (h | h) <;> linarith), if_pos (by linarith),
      if_neg (by push_neg; linarith)]
  · intro h0 h4 ht
    rw [if_neg (by rintro (h | h) <;> linarith), if_pos (by linarith),
      if_pos (by linarith)]

/-- Witness for C2 covering the spec's three sample points and an
out-of-range value. -/
theorem claim2_hty_two_stage_witness :
    validateHty 380 (some 60) = .ok ∧
    validateHty 390 (some 60) = .condPossible ∧
    validateHty 400 (some 65) = .condDefinite ∧
    validateHty 401 (some 60) = .outOfRange :=
  ⟨(claim2_hty_two_stage 380 60).2.1 (by norm_num) (by norm_num) (by norm_num),
   (claim2_hty_two_stage 390 60).2.2.1 (by norm_num) (by norm_num) (by norm_num)
     (by norm_num),
   (claim2_hty_two_stage 400 65).2.2.2 (by norm_num) (by norm_num) (by norm_num),
   (claim2_hty_two_stage 401 60).1 (by norm_num)⟩

/-- C3: DAX and DAY equal the stated closed forms, and the unrounded values
satisfy `dax² + day² = cslength²` exactly for all valid inputs. -/
theorem claim3_dax_day_pythagorean (hta cslength bbdrop : ℝ)
    (h0 : 0 < hta) (h1 : hta < 180) (hc : 0 < cslength) (hb : |bbdrop| ≤ cslength) :
    dax hta cslength bbdrop =
      cslength * Real.cos (degToRad 90 - degToRad hta + Real.arcsin (bbdrop / cslength)) ∧
    day hta cslength bbdrop =
      cslength * Real.sin (degToRad 90 - degToRad hta + Real.arcsin (bbdrop / cslength)) ∧
    dax hta cslength bbdrop ^ 2 + day hta cslength bbdrop ^ 2 = cslength ^ 2 := by
  refine ⟨rfl, rfl, ?_⟩
  unfold dax day
  have h := Real.sin_sq_add_cos_sq
    (degToRad 90 - degToRad hta + Real.arcsin (bbdrop / cslength))
  linear_combination (cslength ^ 2) * h

/-- Witness for C3 at `hta = 72`, `cslength = 420`, `bbdrop = 70`
(the spec's DAX/DAY sample point). -/
theorem claim3_dax_day_pythagorean_witness :
    dax 72 420 70 =
      420 * Real.cos (degToRad 90 - degToRad 72 + Real.arcsin (70 / 420)) ∧
    day 72 420 70 =
      420 * Real.sin (degToRad 90 - degToRad 72 + Real.arcsin (70 / 420)) ∧
    dax 72 420 70 ^ 2 + day 72 420 70 ^ 2 = 420 ^ 2 :=
  claim3_dax_day_pythagorean 72 420 70 (by norm_num) (by norm_num) (by norm_num)
    (by rw [abs_of_nonneg] <;> norm_num)

/-- C5: in Front Center mode, HTX and HTY are the stated direct closed
forms (no stack/reach intermediate). -/
theorem claim5_front_center_closed_forms
    (hta frontcenter bbdrop forkoffset forklength lhsh : ℝ) (isac : Bool)
    (h0 : 0 < hta) (h1 : hta < 180) (hf : 0 < frontcenter)
    (hb : |bbdrop| ≤ frontcenter) :
    htxFrontCenter hta frontcenter bbdrop forkoffset =
      Real.sin (degToRad hta) * Real.sqrt (frontcenter ^ 2 - bbdrop ^ 2) +
        bbdrop * Real.cos (degToRad hta) - forkoffset ∧
    htyFrontCenter hta frontcenter forklength isac forkoffset lhsh bbdrop =
      correctForkLength forklength forkoffset isac + lhsh -
        (Real.sqrt (frontcenter ^ 2 - bbdrop ^ 2) * Real.cos (degToRad hta) -
          bbdrop * Real.sin (degToRad hta)) :=
  ⟨rfl, rfl⟩

/-- Witness for C5 at `hta = 73`, `frontcenter = 600`, `bbdrop = 70`,
`forkoffset = 45`, `forklength = 400`, `lhsh = 12`, axle-to-crown. -/
theorem claim5_front_center_closed_forms_witness :
    (0:ℝ) < 73 ∧ (73:ℝ) < 180 ∧ (0:ℝ) < 600 ∧ |(70:ℝ)| ≤ 600 ∧
    (htxFrontCenter 73 600 70 45 =
      Real.sin (degToRad 73) * Real.sqrt (600 ^ 2 - 70 ^ 2) +
        70 * Real.cos (degToRad 73) - 45 ∧
    htyFrontCenter 73 600 400 true 45 12 70 =
      correctForkLength 400 45 true + 12 -
        (Real.sqrt (600 ^ 2 - 70 ^ 2) * Real.cos (degToRad 73) -
          70 * Real.sin (degToRad 73))) :=
  ⟨by norm_num, by norm_num, by norm_num, by rw [abs_of_nonneg] <;> norm_num,
   claim5_front_center_closed_forms 73 600 70 45 400 12 true (by norm_num)
     (by norm_num) (by norm_num) (by rw [abs_of_nonneg] <;> norm_num)⟩

/-- A two-sided range gate classifies `ok` exactly on the closed interval. -/
lemma rangeGate_eq_ok (lo hi v : ℚ) :
    (if v < lo ∨ v > hi then Verdict.outOfRange else Verdict.ok) = Verdict.ok ↔
      lo ≤ v ∧ v ≤ hi := by
  split_ifs with h
  · constructor
    · intro hc
      exact absurd hc (by decide)
    · rintro ⟨a, b⟩
      rcases h with h | h <;> linarith
  · constructor
    · intro _
      push_neg at h
      exact ⟨h.1, h.2⟩
    · intro _
      rfl

/-- A two-sided range gate classifies `outOfRange` exactly off the closed
interval. -/
lemma rangeGate_eq_outOfRange (lo hi v : ℚ) :
    (if v < lo ∨ v > hi then Verdict.outOfRange else Verdict.ok) =
        Verdict.outOfRange ↔
      v < lo ∨ hi < v := by
  split_ifs with h
  · exact iff_of_true rfl h
  · constructor
    · intro hc
      exact absurd hc (by decide)
    · intro hc
      exact absurd hc h

/-- The nested ST-HT conditional equals the standard two-sided gate. -/
lemma validateStaHta_eq_rangeGate (v : ℚ) :
    validateStaHta v =
      (if v < -10 ∨ v > 10 then Verdict.outOfRange else Verdict.ok) := by
  unfold validateStaHta MIN_ST_HT_ANGLE MAX_ST_HT_ANGLE
  rcases lt_or_ge v (-10) with h1 | h1
  · rw [if_pos h1, if_pos (Or.inl h1)]
  · rw [if_neg (not_lt.mpr h1)]
    rcases lt_or_ge 10 v with h2 | h2
    · rw [if_pos h2, if_pos (Or.inr h2)]
    · rw [if_neg (not_lt.mpr h2), if_neg (by rintro (h | h) <;> linarith)]

/-- C8: the range bounds for ST-HT angle, HTX, DAX and DAY are inclusive on
both ends: a rounded value equal to a bound is `ok`, and any value strictly
outside is `outOfRange` (e.g. HTX 80 and 700 are `ok`; 79.99 and 700.01 are
not). -/
theorem claim8_inclusive_range_bounds (v : ℚ) :
    (validateStaHta v = .ok ↔ -10 ≤ v ∧ v ≤ 10) ∧
    (validateHtx v = .ok ↔ 80 ≤ v ∧ v ≤ 700) ∧
    (validateDax v = .ok ↔ 50 ≤ v ∧ v ≤ 600) ∧
    (validateDay v = .ok ↔ 0 ≤ v ∧ v ≤ 250) ∧
    (validateStaHta v = .outOfRange ↔ v < -10 ∨ 10 < v) ∧
    (validateHtx v = .outOfRange ↔ v < 80 ∨ 700 < v) ∧
    (validateDax v = .outOfRange ↔ v < 50 ∨ 600 < v) ∧
    (validateDay v = .outOfRange ↔ v < 0 ∨ 250 < v) ∧
    validateHtx 80 = .ok ∧ validateHtx 700 = .ok ∧
    validateHtx 79.99 = .outOfRange ∧ validateHtx 700.01 = .outOfRange := by
  refine ⟨?_, ?_, ?_, ?_, ?_, ?_, ?_, ?_, ?_, ?_, ?_, ?_⟩
  · rw [validateStaHta_eq_rangeGate]
    exact rangeGate_eq_ok (-10) 10 v
  · unfold validateHtx MIN_HTX MAX_HTX
    exact rangeGate_eq_ok 80 700 v
  · unfold validateDax MIN_DAX MAX_DAX
    exact rangeGate_eq_ok 50 600 v
  · unfold validateDay MIN_DAY MAX_DAY
    exact rangeGate_eq_ok 0 250 v
  · rw [validateStaHta_eq_rangeGate]
    exact rangeGate_eq_outOfRange (-10) 10 v
  · unfold validateHtx MIN_HTX MAX_HTX
    exact rangeGate_eq_outOfRange 80 700 v
  · unfold validateDax MIN_DAX MAX_DAX
    exact rangeGate_eq_outOfRange 50 600 v
  · unfold validateDay MIN_DAY MAX_DAY
    exact rangeGate_eq_outOfRange 0 250 v
  · unfold validateHtx MIN_HTX MAX_HTX
    norm_num
  · unfold validateHtx MIN_HTX MAX_HTX
    norm_num
  · unfold validateHtx MIN_HTX MAX_HTX
    norm_num
  · unfold validateHtx MIN_HTX MAX_HTX
    norm_num

/-- C4: the ETT Taiwanese mode derives
`stack = (htlength + correctedForkLength + lhsh) * sin(hta) - forkoffset * cos(hta) + bbdrop`
and `reach = etttaiwanese - stack * tan(90° - sta)` and feeds the pair into
the standard HTX/HTY formulas; the ETT at HT-TT junction mode performs the
same derivation with `htlength - htttoffset` in the stack formula and adds
`htttoffset` back onto the final HTY. -/
theorem claim4_ett_mode_derivations
    (hta sta htlength etttaiwanese etttt htttoffset forklength : ℝ) (isac : Bool)
    (forkoffset lhsh bbdrop : ℝ) :
    htxEttTaiwanese hta sta htlength etttaiwanese forklength isac forkoffset lhsh bbdrop =
      htaStackReachToHtx hta
        (ettTaiwaneseStack hta htlength forklength isac forkoffset lhsh bbdrop)
        (ettReachSpec sta etttaiwanese
          (ettTaiwaneseStack hta htlength forklength isac forkoffset lhsh bbdrop)) ∧
    htyEttTaiwanese hta sta htlength etttaiwanese forklength isac forkoffset lhsh bbdrop =
      htaHtlStackReachToHty hta htlength
        (ettTaiwaneseStack hta htlength forklength isac forkoffset lhsh bbdrop)
        (ettReachSpec sta etttaiwanese
          (ettTaiwaneseStack hta htlength forklength isac forkoffset lhsh bbdrop)) ∧
    htxEttTt hta sta htlength etttt htttoffset forklength isac forkoffset lhsh bbdrop =
      htaStackReachToHtx hta
        (ettTaiwaneseStack hta (htlength - htttoffset) forklength isac forkoffset lhsh bbdrop)
        (ettReachSpec sta etttt
          (ettTaiwaneseStack hta (htlength - htttoffset) forklength isac forkoffset lhsh
            bbdrop)) ∧
    htyEttTt hta sta htlength etttt htttoffset forklength isac forkoffset lhsh bbdrop =
      htaHtlStackReachToHty hta htlength
        (ettTaiwaneseStack hta (htlength - htttoffset) forklength isac forkoffset lhsh bbdrop)
        (ettReachSpec sta etttt
          (ettTaiwaneseStack hta (htlength - htttoffset) forklength isac forkoffset lhsh
            bbdrop)) +
      htttoffset := by
  have hreach : ∀ e s : ℝ, ettTaiwaneseReach sta e s = ettReachSpec sta e s := by
    intro e s
    simp only [ettTaiwaneseReach, ettReachSpec, degToRad]
    ring_nf
  have hstack :
      ettTtStack hta htlength htttoffset forklength isac forkoffset lhsh bbdrop =
        ettTaiwaneseStack hta (htlength - htttoffset) forklength isac forkoffset lhsh
          bbdrop := rfl
  have htt : ∀ e s : ℝ, ettTtReach sta e s = ettReachSpec sta e s := by
    intro e s
    simp only [ettTtReach, ettReachSpec, degToRad]
    ring_nf
  refine ⟨?_, ?_, ?_, ?_⟩ <;>
    simp only [htxEttTaiwanese, htyEttTaiwanese, htxEttTt, htyEttTt, hstack, hreach, htt]

/-- Sample input with an axle-to-crown fork offset exceeding the fork length
(`forklength = 4`, `forkoffset = 5`). -/
def exDomainErr : Inputs :=
  ⟨some 73, some 74, some 120, some 70, some 420, none, none, some 600,
   none, none, none, some 4, true, some 5, some 12⟩

/-- C6: when `isAxleToCrown` holds and `|forkoffset| > forklength`, the
schema rejects `forkoffset`, so the resolver is never reached with a
negative radicand (no NaN flows through rounding or range checks — the
output stays uncomputed); on the valid domain `|forkoffset| ≤ forklength`
the correction returns `sqrt(forklength² - forkoffset²)` when axle-to-crown
and `forklength` unchanged otherwise. -/
theorem claim6_fork_domain_guard :
    (∀ (i : Inputs) (fl fo : ℚ), i.isac = true → i.forklength = some fl →
        i.forkoffset = some fo → fl < |fo| →
        forkoffsetReady i = false ∧ htyFrontCenterEval i = none) ∧
    (∀ fl fo : ℝ, |fo| ≤ fl →
        correctForkLength fl fo true = Real.sqrt (fl ^ 2 - fo ^ 2)) ∧
    ∀ fl fo : ℝ, correctForkLength fl fo false = fl := by
  refine ⟨?_, ?_, ?_⟩
  · intro i fl fo hisac hfl hfo hlt
    have hready : forkoffsetReady i = false := by
      simp only [forkoffsetReady, hfo, hisac, if_true, hfl, decide_eq_false_iff_not,
        not_le]
      exact hlt
    refine ⟨hready, ?_⟩
    simp [htyFrontCenterEval, hisac, hready]
  · intro fl fo _
    rfl
  · intro fl fo
    rfl

/-- Witness for C6: the guard fires on `exDomainErr`, and the 3-4-5
correction triangle lies in the valid domain. -/
theorem claim6_fork_domain_guard_witness :
    (forkoffsetReady exDomainErr = false ∧ htyFrontCenterEval exDomainErr = none) ∧
    correctForkLength 5 3 true = Real.sqrt (5 ^ 2 - 3 ^ 2) ∧
    correctForkLength 5 3 false = 5 :=
  ⟨claim6_fork_domain_guard.1 exDomainErr 4 5 rfl rfl rfl
      (by rw [abs_of_nonneg] <;> norm_num),
   claim6_fork_domain_guard.2.1 5 3 (by rw [abs_of_nonneg] <;> norm_num),
   claim6_fork_domain_guard.2.2 5 3⟩

/-- Stack/Reach-mode input with `reach` blank but every input of the other
outputs present and valid. -/
def exIncomplete : Inputs :=
  ⟨some 72, some 74, some 120, some 70, some 420, some 560, none, none,
   none, none, none, none, false, none, none⟩

/-- C7: omitting `reach` in Stack/Reach mode leaves HTX and HTY uncomputed
(no formula attempted), while ST-HT angle, DAX and DAY are still computed
whenever their own inputs are present and valid — one output's
incompleteness never blocks an independently satisfiable output. -/
theorem claim7_independent_outputs (i : Inputs) (hr : i.reach = none) :
    htxStackReachEval i = none ∧
    htyStackReachEval i = none ∧
    (∀ h s : ℚ, i.hta = some h → i.sta = some s → 0 < h → h < 180 →
      0 < s → s < 180 → staHtaEval i = some (s - h)) ∧
    (∀ h c b : ℚ, i.hta = some h → i.cslength = some c → i.bbdrop = some b →
      0 < h → h < 180 → 0 < c → |b| ≤ c →
      (∀ f : ℚ, i.frontcenter = some f → |b| ≤ f) →
      daxEval i = some (dax h c b) ∧ dayEval i = some (day h c b)) := by
  have hnr : reachReady i = false := by simp [reachReady, hr]
  refine ⟨?_, ?_, ?_, ?_⟩
  · simp [htxStackReachEval, hnr]
  · simp [htyStackReachEval, hnr]
  · intro h s hh hs h1 h2 h3 h4
    have hhr : htaReady i = true := by
      simp [htaReady, hh]
      exact ⟨h1, h2⟩
    have hsr : staReady i = true := by
      simp [staReady, hs]
      exact ⟨h3, h4⟩
    simp [staHtaEval, hhr, hsr, hh, hs]
  · intro h c b hh hc hb h1 h2 h3 h4 hf
    have hhr : htaReady i = true := by
      simp [htaReady, hh]
      exact ⟨h1, h2⟩
    have hcr : cslengthReady i = true := by
      simp [cslengthReady, hc]
      exact h3
    have hbr : bbdropReady i = true := by
      rcases hfc : i.frontcenter with _ | f
      · simp [bbdropReady, hb, hc, hfc]
        exact h4
      · simp [bbdropReady, hb, hc, hfc]
        exact ⟨h4, hf f hfc⟩
    exact ⟨by simp [daxEval, hhr, hcr, hbr, hh, hc, hb],
      by simp [dayEval, hhr, hcr, hbr, hh, hc, hb]⟩

/-- Witness for C7 on `exIncomplete`. -/
theorem claim7_independent_outputs_witness :
    htxStackReachEval exIncomplete = none ∧
    htyStackReachEval exIncomplete = none ∧
    staHtaEval exIncomplete = some (74 - 72) ∧
    (daxEval exIncomplete = some (dax 72 420 70) ∧
      dayEval exIncomplete = some (day 72 420 70)) :=
  have h := claim7_independent_outputs exIncomplete rfl
  ⟨h.1, h.2.1,
   h.2.2.1 72 74 rfl rfl (by norm_num) (by norm_num) (by norm_num) (by norm_num),
   h.2.2.2 72 420 70 rfl rfl rfl (by norm_num) (by norm_num) (by norm_num)
     (by rw [abs_of_nonneg] <;> norm_num)
     (fun f hf => Option.noConfusion hf)⟩

/-- Front Center-mode input with `htlength` blank and every HTY input
present and valid. -/
def exFrontCenter : Inputs :=
  ⟨some 73, none, none, some 70, none, none, none, some 600,
   none, none, none, some 400, true, some 45, some 12⟩

/-- C10 (implicit): in Front Center mode `htlength` is not among HTY's
required inputs — the HTY result never consults it, so HTY is computed even
when it is absent — and for every rounded HTY value `v ∈ [0, 400]` the
verdict is then `ok`: `htyTop` is `v + parseFloat("")` = NaN and the
comparison `htyTop > 440` is false. -/
theorem claim10_hty_fc_ignores_htlength :
    (∀ i : Inputs, htyFrontCenterEval i = htyFrontCenterEval { i with htlength := none }) ∧
    (∀ i : Inputs, htaReady i = true → frontcenterReady i = true →
      forklengthReady i = true → (!i.isac || forkoffsetReady i) = true →
      lhshReady i = true → bbdropReady i = true →
      (htyFrontCenterEval i).isSome = true) ∧
    ∀ v : ℚ, 0 ≤ v → v ≤ 400 → validateHty v none = .ok := by
  refine ⟨?_, ?_, ?_⟩
  · intro i
    rfl
  · intro i hh hfc hfl hio hlh hbb
    rcases h1 : i.hta with _ | h
    · simp [htaReady, h1] at hh
    rcases h2 : i.frontcenter with _ | fc
    · simp [frontcenterReady, h2] at hfc
    rcases h3 : i.forklength with _ | fl
    · simp [forklengthReady, h3] at hfl
    rcases h4 : i.lhsh with _ | lh
    · simp [lhshReady, h4] at hlh
    rcases h5 : i.bbdrop with _ | bb
    · simp [bbdropReady, h5] at hbb
    simp [htyFrontCenterEval, hh, hfc, hfl, hio, hlh, hbb, h1, h2, h3, h4, h5]
  · intro v h0 h4
    unfold validateHty MIN_HTY MAX_HTY
    rw [if_neg (by rintro (h | h) <;> linarith)]

/-- Witness for C10 on `exFrontCenter` (whose `htlength` is blank) and the
boundary value `v = 400`. -/
theorem claim10_hty_fc_ignores_htlength_witness :
    htyFrontCenterEval exFrontCenter =
      htyFrontCenterEval { exFrontCenter with htlength := none } ∧
    (htyFrontCenterEval exFrontCenter).isSome = true ∧
    validateHty 400 none = .ok :=
  ⟨claim10_hty_fc_ignores_htlength.1 exFrontCenter,
   claim10_hty_fc_ignores_htlength.2.1 exFrontCenter (by decide) (by decide)
     (by decide) (by decide) (by decide) (by decide),
   claim10_hty_fc_ignores_htlength.2.2 400 (by norm_num) (by norm_num)⟩

/-- The generic HTX formula collapses to the rotation form
`reach * sin(hta) + stack * cos(hta)` (radian conversion applied), for any
positive `reach`. -/
lemma htaStackReachToHtx_closed (hta stack reach : ℝ) (hr : 0 < reach) :
    htaStackReachToHtx hta stack reach =
      reach * Real.sin (degToRad hta) + stack * Real.cos (degToRad hta) := by
  unfold htaStackReachToHtx
  have harg :
      degToRad (180 - hta) - Real.arctan (stack / reach) =
        π - (degToRad hta + Real.arctan (stack / reach)) := by
    unfold degToRad
    ring
  rw [harg, Real.sin_pi_sub, Real.sin_add, Real.sin_arctan, Real.cos_arctan]
  have hA : (0 : ℝ) < 1 + (stack / reach) ^ 2 := by positivity
  have h1 : Real.sqrt (stack ^ 2 + reach ^ 2) =
      reach * Real.sqrt (1 + (stack / reach) ^ 2) := by
    rw [← Real.sqrt_sq hr.le, ← Real.sqrt_mul (by positivity)]
    congr 1
    field_simp
    ring
  rw [h1]
  have hsA : Real.sqrt (1 + (stack / reach) ^ 2) ≠ 0 := by positivity
  field_simp
  ring

/-- `cos 72° = (√5 - 1)/4`, via the double angle of `cos 36°`. -/
lemma cos_two_pi_div_five : Real.cos (2 * (π / 5)) = (Real.sqrt 5 - 1) / 4 := by
  rw [Real.cos_two_mul, Real.cos_pi_div_five]
  have h5 : Real.sqrt 5 ^ 2 = 5 := Real.sq_sqrt (by norm_num)
  linear_combination h5 / 8

/-- `sin 72° = √(10 + 2√5)/4`. -/
lemma sin_two_pi_div_five :
    Real.sin (2 * (π / 5)) = Real.sqrt (10 + 2 * Real.sqrt 5) / 4 := by
  have h0 : (0 : ℝ) ≤ 2 * (π / 5) := by positivity
  have h1 : 2 * (π / 5) ≤ π := by linarith [Real.pi_pos.le]
  have h5 : Real.sqrt 5 ^ 2 = 5 := Real.sq_sqrt (by norm_num)
  rw [Real.sin_eq_sqrt_one_sub_cos_sq h0 h1, cos_two_pi_div_five,
    show (1 : ℝ) - ((Real.sqrt 5 - 1) / 4) ^ 2 = (10 + 2 * Real.sqrt 5) / 16 from by
      linear_combination -h5 / 16,
    Real.sqrt_div (by positivity) 16,
    show (16 : ℝ) = 4 ^ 2 from by norm_num,
    Real.sqrt_sq (by norm_num : (0 : ℝ) ≤ 4)]

/-- The sample HTX in exact surd form. -/
lemma htx_sample_exact :
    htaStackReachToHtx 72 560 385 =
      140 * (Real.sqrt 5 - 1) + (385 / 4) * Real.sqrt (10 + 2 * Real.sqrt 5) := by
  rw [htaStackReachToHtx_closed 72 560 385 (by norm_num),
    show degToRad (72 : ℝ) = 2 * (π / 5) from by unfold degToRad; ring,
    sin_two_pi_div_five, cos_two_pi_div_five]
  ring

/-- Rational bounds on `√5`. -/
lemma sqrt_five_bounds :
    (2.23606797 : ℝ) < Real.sqrt 5 ∧ Real.sqrt 5 < 2.23606798 :=
  ⟨(Real.lt_sqrt (by norm_num)).mpr (by norm_num),
   (Real.sqrt_lt' (by norm_num)).mpr (by norm_num)⟩

/-- Rational bounds on `√(10 + 2√5)`. -/
lemma sqrt_aux_bounds :
    (3.8042260 : ℝ) < Real.sqrt (10 + 2 * Real.sqrt 5) ∧
      Real.sqrt (10 + 2 * Real.sqrt 5) < 3.8042261 := by
  obtain ⟨l5, u5⟩ := sqrt_five_bounds
  constructor
  · apply (Real.lt_sqrt (by norm_num)).mpr
    nlinarith
  · apply (Real.sqrt_lt' (by norm_num)).mpr
    nlinarith

/-- C9 counterexample: at `hta = 72`, `stack = 560`, `reach = 385`, the
formula's HTX is not within `0.01` of `614.46`. -/
theorem claim9_sample_counterexample :
    ¬ |htaStackReachToHtx 72 560 385 - 614.46| ≤ 0.01 := by
  rw [htx_sample_exact, abs_le]
  obtain ⟨l5, u5⟩ := sqrt_five_bounds
  obtain ⟨lS, uS⟩ := sqrt_aux_bounds
  rintro ⟨h1, -⟩
  nlinarith

/-- C9 amended: at `hta = 72`, `stack = 560`, `reach = 385`, the formula's
HTX is within `0.01` of `539.21`. -/
theorem claim9_sample_value :
    |htaStackReachToHtx 72 560 385 - 539.21| ≤ 0.01 := by
  rw [htx_sample_exact, abs_le]
  obtain ⟨l5, u5⟩ := sqrt_five_bounds
  obtain ⟨lS, uS⟩ := sqrt_aux_bounds
  constructor <;> nlinarith

end Cobra
